import Mathlib

/-!
Verification of the kiro-workshop shopping system.

The Express backend (`backend/server.js`) is embedded as pure functions over
an explicit database state (`Db`): SQLite row operations become list
operations (`find?` for `db.get`, `map` for `UPDATE ... WHERE`, `filter` for
`DELETE ... WHERE`, append for `INSERT` with AUTOINCREMENT ids).  The React
cart total (`CartPage.js` `calculateTotal`) is embedded over exact rationals.
The chatbot service components whose source is absent from the repository
snapshot (BackendClient circuit breaker, Orchestrator loop, tool layer) are
modelled from the specification, as marked on each definition.
-/

namespace KiroShop

/-- A row of the `products` table (`server.js` lines 20-27).  Prices are
modelled as exact rationals. -/
structure Product where
  id : Nat
  name : String
  price : ℚ
  description : String
  emoji : String
  category : String
  deriving Repr, DecidableEq

/-- A row of the `cart_items` table (`server.js` lines 30-35). -/
structure CartItem where
  id : Nat
  product_id : Nat
  quantity : Int
  deriving Repr, DecidableEq

/-- The backend database state: the two tables the cart endpoints touch,
plus the AUTOINCREMENT counter for `cart_items.id`. -/
structure Db where
  products : List Product
  cart_items : List CartItem
  nextCartId : Nat
  deriving Repr, DecidableEq

/-- `POST /api/cart` (`server.js` lines 149-181): look up the first cart row
with the given `product_id` (`db.get ... WHERE product_id = ?`); if present,
`UPDATE cart_items SET quantity = quantity + ? WHERE product_id = ?` and
answer "Cart updated successfully"; otherwise `INSERT` a fresh row and answer
"Item added to cart successfully".  `quantity` defaults to 1 when omitted
(`const { product_id, quantity = 1 } = req.body`). -/
def addToCart (db : Db) (product_id : Nat) (quantity : Option Int) : Db × String :=
  let q := quantity.getD 1
  match db.cart_items.find? (fun r => r.product_id == product_id) with
  | some _ =>
      ({ db with cart_items :=
          db.cart_items.map (fun r =>
            if r.product_id == product_id then { r with quantity := r.quantity + q } else r) },
       "Cart updated successfully")
  | none =>
      let row : CartItem := ⟨db.nextCartId, product_id, q⟩
      ({ db with cart_items := db.cart_items ++ [row], nextCartId := db.nextCartId + 1 },
       "Item added to cart successfully")

/-- `PUT /api/cart/:id` (`server.js` lines 184-195):
`UPDATE cart_items SET quantity = ? WHERE id = ?`, then unconditionally
answer "Cart item updated successfully". -/
def updateCartItem (db : Db) (id : Nat) (quantity : Int) : Db × String :=
  ({ db with cart_items :=
      db.cart_items.map (fun r => if r.id == id then { r with quantity := quantity } else r) },
   "Cart item updated successfully")

/-- `DELETE /api/cart/:id` (`server.js` lines 198-208):
`DELETE FROM cart_items WHERE id = ?`, then unconditionally answer
"Item removed from cart successfully". -/
def removeCartItem (db : Db) (id : Nat) : Db × String :=
  ({ db with cart_items := db.cart_items.filter (fun r => r.id != id) },
   "Item removed from cart successfully")

/-- `GET /api/products/:id` (`server.js` lines 106-119): `db.get` returns the
first matching product row; a missing row yields HTTP 404 with body
`{ error: 'Product not found' }`, a present row is returned as-is. -/
def getProduct (db : Db) (id : Nat) : Except (Nat × String) Product :=
  match db.products.find? (fun p => p.id == id) with
  | some p => .ok p
  | none => .error (404, "Product not found")

/-- A row of the `GET /api/cart` join (`server.js` lines 134-146), as consumed
by `CartPage.js`: cart-item id and quantity joined with the product's name,
price, emoji and id. -/
structure CartRow where
  id : Nat
  quantity : Int
  name : String
  price : ℚ
  emoji : String
  product_id : Nat
  deriving Repr, DecidableEq

/-- Rounding to 2 decimal places (the numeric content of JavaScript
`toFixed(2)` on an exact value): round half up at the second decimal. -/
def roundTo2 (x : ℚ) : ℚ := (⌊x * 100 + 1 / 2⌋ : ℤ) / 100

/-- `calculateTotal` from `CartPage.js` lines 48-50:
`cartItems.reduce((total, item) => total + (item.price * item.quantity), 0)`
followed by `.toFixed(2)`.  `reduce` with an initial accumulator is a left
fold; the final 2-decimal formatting is modelled by `roundTo2`. -/
def calculateTotal (cartItems : List CartRow) : ℚ :=
  roundTo2 (cartItems.foldl (fun total item => total + item.price * (item.quantity : ℚ)) 0)

/-- The spec's description of the cart total, written from its words: the
total is Σ(price × quantity) over the items, rounded to 2 decimal places. -/
def cartTotalSpec (cartItems : List CartRow) : ℚ :=
  roundTo2 ((cartItems.map (fun item => item.price * (item.quantity : ℚ))).sum)

/-- Typed tool-layer errors (spec §7 taxonomy), as far as the claims need
them. -/
inductive ToolError where
  | validationError (msg : String)
  | notFound (msg : String)
  | backendUnavailable
  deriving Repr, DecidableEq

/-- Does `needle` occur at the start of `hay`? (character-list version) -/
def listStartsWith : List Char → List Char → Bool
  | [], _ => true
  | _ :: _, [] => false
  | a :: as, b :: bs => a == b && listStartsWith as bs

/-- Does `needle` occur contiguously anywhere in `hay`? -/
def listOccursIn (needle : List Char) : List Char → Bool
  | [] => needle.isEmpty
  | c :: rest => listStartsWith needle (c :: rest) || listOccursIn needle rest

/-- Lower-cased character sequence of a string (case-insensitive comparison
key). -/
def lowerStr (s : String) : List Char := s.data.map Char.toLower

/-- Case-insensitive substring test: does `pat` occur in `hay`, ignoring
case? -/
def containsCI (hay pat : String) : Bool := listOccursIn (lowerStr pat) (lowerStr hay)

/-- Arguments of the `product_search` tool (spec §4.4). -/
structure SearchArgs where
  query : Option String
  category : Option String
  min_price : Option ℚ
  max_price : Option ℚ
  deriving Repr

/-- Modelled from the spec: the filter predicate of the chatbot service's
`product_search` tool, whose Python source is absent from the repository
snapshot (only its README and plan documents are present).  Spec §4.4:
case-insensitive substring match of `query` against name/description/category;
`category` is an exact case-insensitive filter; price bounds are inclusive. -/
def matchesSearch (args : SearchArgs) (p : Product) : Bool :=
  (match args.query with
   | none => true
   | some q => containsCI p.name q || containsCI p.description q || containsCI p.category q) &&
  (match args.category with
   | none => true
   | some c => lowerStr p.category == lowerStr c) &&
  (match args.min_price with
   | none => true
   | some lo => decide (lo ≤ p.price)) &&
  (match args.max_price with
   | none => true
   | some hi => decide (p.price ≤ hi))

/-- Modelled from the spec: the `product_search` tool (spec §4.4), missing
from the repository snapshot.  It filters the backend's product list by
`matchesSearch` and always succeeds — an empty result list is a success, not
an error. -/
def product_search (args : SearchArgs) (products : List Product) :
    Except ToolError (List Product) :=
  .ok (products.filter (matchesSearch args))

/-- Actions of the `cart_management` tool (spec §4.4). -/
inductive CartAction where
  | add
  | update
  | remove
  deriving Repr, DecidableEq

/-- Modelled from the spec: the chatbot service's `cart_management` tool
(spec §4.4), missing from the repository snapshot.  It dispatches to the
corresponding backend cart operation; `quantity < 1` on `update` is a
`ValidationError` (surfaced immediately, no backend call, so the store is
untouched). -/
def cart_management (db : Db) (action : CartAction) (id : Nat) (quantity : Option Int) :
    Db × Except ToolError String :=
  match action with
  | .add =>
      let r := addToCart db id quantity
      (r.1, .ok r.2)
  | .update =>
      match quantity with
      | some q =>
          if q < 1 then (db, .error (.validationError "Quantity must be at least 1"))
          else
            let r := updateCartItem db id q
            (r.1, .ok r.2)
      | none => (db, .error (.validationError "Quantity is required for update"))
  | .remove =>
      let r := removeCartItem db id
      (r.1, .ok r.2)


/-- A conversation turn (spec §3): user, assistant, or tool-result. -/
inductive Turn where
  | user (text : String)
  | assistant (text : String)
  | tool (name : String) (result : String)
  deriving Repr, DecidableEq

/-- A tool request emitted by the model: tool name plus arguments. -/
structure ToolCall where
  name : String
  args : List (String × String)
  deriving Repr, DecidableEq

/-- What the model capability returns at each iteration (spec §1, §4.2): a
final natural-language answer, or a request to invoke named tools. -/
inductive ModelReply where
  | final (text : String)
  | toolRequest (calls : List ToolCall)
  deriving Repr, DecidableEq

/-- Modelled from the spec: the fixed apologetic fallback text the
Orchestrator returns when the iteration bound is exhausted (spec §4.2 step 6);
the chatbot service source carrying the literal wording is absent from the
repository snapshot. -/
def fallbackText : String :=
  "I apologize, but I am having trouble processing your request right now. Please try again."

/-- Modelled from the spec: the Orchestrator's bounded model/tool loop
(spec §4.2), whose source is absent from the repository snapshot.  `modelFn`
is the black-box model capability, `execTool` executes one tool call into a
`tool` turn.  Fuel counts the remaining model invocations; exhausting it
yields the fallback text.  Returns the response text together with the number
of model invocations performed. -/
def runLoop (modelFn : List Turn → ModelReply) (execTool : ToolCall → Turn) :
    Nat → List Turn → String × Nat
  | 0, _ => (fallbackText, 0)
  | Nat.succ n, history =>
      match modelFn history with
      | .final t => (t, 1)
      | .toolRequest calls =>
          let r := runLoop modelFn execTool n (history ++ calls.map execTool)
          (r.1, r.2 + 1)

/-- Modelled from the spec: `process_message` (spec §4.2) — append the
incoming message as a `user` turn and run the bounded loop with
`max_iterations` fuel. -/
def process_message (modelFn : List Turn → ModelReply) (execTool : ToolCall → Turn)
    (max_iterations : Nat) (history : List Turn) (message : String) : String × Nat :=
  runLoop modelFn execTool max_iterations (history ++ [Turn.user message])

/-- Circuit-breaker policy values (spec §4.3, §9): consecutive-failure
threshold `N` and cool-down window duration. -/
structure CBConfig where
  failureThreshold : Nat
  cooldown : Nat
  deriving Repr, DecidableEq

/-- Circuit-breaker state: the consecutive transient-failure count and, when
the circuit is open, the time it opened. -/
structure CBState where
  consecutiveFailures : Nat
  openedAt : Option Nat
  deriving Repr, DecidableEq

/-- The BackendClient's initial circuit-breaker state: closed, zero
consecutive failures. -/
def cbInit : CBState := ⟨0, none⟩

/-- Outcome of one BackendClient call as the circuit breaker sees it. -/
inductive CBOutcome where
  | success
  | backendUnavailable
  deriving Repr, DecidableEq

/-- Modelled from the spec: one BackendClient call through the circuit
breaker (spec §4.3), whose source is absent from the repository snapshot.
`net` is whether the network attempt (with its internal retries) would
succeed; the third component of the result records whether a network attempt
was made at all.  Open circuit inside the cool-down window: short-circuit to
`BackendUnavailable`, no attempt, state unchanged.  Open circuit after the
window: one probe — success closes the circuit and resets the counter,
failure reopens the cool-down.  Closed circuit: success resets the counter;
failure increments it and opens the circuit once the threshold is reached. -/
def cbCall (cfg : CBConfig) (st : CBState) (now : Nat) (net : Bool) :
    CBState × CBOutcome × Bool :=
  match st.openedAt with
  | some t =>
      if now < t + cfg.cooldown then (st, .backendUnavailable, false)
      else if net then (⟨0, none⟩, .success, true)
      else (⟨st.consecutiveFailures + 1, some now⟩, .backendUnavailable, true)
  | none =>
      if net then (⟨0, none⟩, .success, true)
      else
        let f := st.consecutiveFailures + 1
        if cfg.failureThreshold ≤ f then (⟨f, some now⟩, .backendUnavailable, true)
        else (⟨f, none⟩, .backendUnavailable, true)

/-- A sequence of transient-failure calls at the given times, folded through
the circuit breaker (network always failing). -/
def cbFailSeq (cfg : CBConfig) (st : CBState) (times : List Nat) : CBState :=
  times.foldl (fun s t => (cbCall cfg s t false).1) st

/-- C1: adding a product already in the cart accumulates quantity (the row's
stored quantity grows by the requested amount, never deduplicated or
replaced); adding a product not yet in the cart inserts a new row. -/
theorem add_cart_item_accumulates (db : Db) (pid : Nat) (q : Int) :
    (∀ r ∈ db.cart_items, r.product_id = pid →
      ∃ r' ∈ (addToCart db pid (some q)).1.cart_items,
        r'.id = r.id ∧ r'.product_id = pid ∧ r'.quantity = r.quantity + q) ∧
    ((∀ r ∈ db.cart_items, r.product_id ≠ pid) →
      (addToCart db pid (some q)).1.cart_items =
        db.cart_items ++ [⟨db.nextCartId, pid, q⟩]) := by
  constructor
  · intro r hr hpid
    have hfind : (db.cart_items.find? (fun r => r.product_id == pid)).isSome :=
      List.find?_isSome.mpr ⟨r, hr, by simp [hpid]⟩
    cases hcase : db.cart_items.find? (fun r => r.product_id == pid) with
    | none => rw [hcase] at hfind; simp at hfind
    | some r0 =>
        refine ⟨{ r with quantity := r.quantity + q }, ?_, rfl, hpid, rfl⟩
        simp only [addToCart, hcase, Option.getD_some]
        exact List.mem_map.mpr ⟨r, hr, by simp [hpid]⟩
  · intro h
    have hfind : db.cart_items.find? (fun r => r.product_id == pid) = none :=
      List.find?_eq_none.mpr (fun x hx => by simp [h x hx])
    simp [addToCart, hfind]

/-- C1 witness: in a cart holding row (id 1, product 7, quantity 2), adding
product 7 with quantity 3 yields a row with quantity 5; in an empty cart it
inserts a fresh row. -/
theorem add_cart_item_accumulates_witness :
    ((⟨1, 7, 2⟩ : CartItem) ∈ (Db.mk [] [⟨1, 7, 2⟩] 2).cart_items ∧
      ∃ r' ∈ (addToCart ⟨[], [⟨1, 7, 2⟩], 2⟩ 7 (some 3)).1.cart_items,
        r'.id = 1 ∧ r'.product_id = 7 ∧ r'.quantity = (2 : Int) + 3) ∧
    ((∀ r ∈ (Db.mk [] [] 1).cart_items, r.product_id ≠ 7) ∧
      (addToCart ⟨[], [], 1⟩ 7 (some 3)).1.cart_items = [] ++ [⟨1, 7, 3⟩]) := by
  refine ⟨⟨by decide, ?_⟩, ⟨by decide, ?_⟩⟩
  · exact (add_cart_item_accumulates ⟨[], [⟨1, 7, 2⟩], 2⟩ 7 3).1 ⟨1, 7, 2⟩ (by decide) rfl
  · exact (add_cart_item_accumulates ⟨[], [], 1⟩ 7 3).2 (by decide)

/-- C8: the cart-update endpoint always answers "Cart item updated
successfully", even for an id matching no stored cart item, and in that case
the store is unchanged. -/
theorem update_cart_item_always_success (db : Db) (id : Nat) (q : Int) :
    (updateCartItem db id q).2 = "Cart item updated successfully" ∧
    ((∀ r ∈ db.cart_items, r.id ≠ id) → (updateCartItem db id q).1 = db) := by
  refine ⟨rfl, ?_⟩
  intro h
  have hmap : db.cart_items.map
      (fun r => if r.id == id then { r with quantity := q } else r) = db.cart_items := by
    have := List.map_congr_left (l := db.cart_items)
      (f := fun r => if r.id == id then { r with quantity := q } else r) (g := fun r => r)
      (fun a ha => by simp [h a ha])
    simpa using this
  unfold updateCartItem
  rw [hmap]

/-- C8 witness: updating absent cart-item id 5 still answers success and
leaves the store unchanged. -/
theorem update_cart_item_always_success_witness :
    (updateCartItem ⟨[], [⟨1, 7, 2⟩], 2⟩ 5 9).2 = "Cart item updated successfully" ∧
    ((∀ r ∈ (Db.mk [] [⟨1, 7, 2⟩] 2).cart_items, r.id ≠ 5) ∧
      (updateCartItem ⟨[], [⟨1, 7, 2⟩], 2⟩ 5 9).1 = ⟨[], [⟨1, 7, 2⟩], 2⟩) :=
  ⟨(update_cart_item_always_success ⟨[], [⟨1, 7, 2⟩], 2⟩ 5 9).1,
    by decide,
    (update_cart_item_always_success ⟨[], [⟨1, 7, 2⟩], 2⟩ 5 9).2 (by decide)⟩

/-- C9: cart-item deletion is idempotent — the endpoint always answers the
same success message whether or not the id exists, and deleting the same id
twice leaves exactly the state after the first deletion. -/
theorem remove_cart_item_idempotent (db : Db) (id : Nat) :
    (removeCartItem db id).2 = "Item removed from cart successfully" ∧
    (removeCartItem (removeCartItem db id).1 id).1 = (removeCartItem db id).1 := by
  refine ⟨rfl, ?_⟩
  simp [removeCartItem, List.filter_filter]

/-- C10: the add-to-cart endpoint never consults the products table — for a
product_id matching no product (and not yet in the cart) it still inserts a
row, with quantity defaulting to 1 when omitted, and answers a success
message, not a 404. -/
theorem add_cart_no_product_check (db : Db) (pid : Nat)
    (hprod : ∀ p ∈ db.products, p.id ≠ pid)
    (hcart : ∀ r ∈ db.cart_items, r.product_id ≠ pid) :
    (addToCart db pid none).1.cart_items = db.cart_items ++ [⟨db.nextCartId, pid, 1⟩] ∧
    (addToCart db pid none).2 = "Item added to cart successfully" := by
  have hfind : db.cart_items.find? (fun r => r.product_id == pid) = none :=
    List.find?_eq_none.mpr (fun x hx => by simp [hcart x hx])
  constructor <;> simp [addToCart, hfind]

/-- C10 witness: product id 42 matches no product, yet the add succeeds and
inserts a quantity-1 row. -/
theorem add_cart_no_product_check_witness :
    (∀ p ∈ (Db.mk [] [] 1).products, p.id ≠ 42) ∧
    (∀ r ∈ (Db.mk [] [] 1).cart_items, r.product_id ≠ 42) ∧
    (addToCart ⟨[], [], 1⟩ 42 none).1.cart_items = [] ++ [⟨1, 42, 1⟩] ∧
    (addToCart ⟨[], [], 1⟩ 42 none).2 = "Item added to cart successfully" :=
  ⟨by decide, by decide, add_cart_no_product_check ⟨[], [], 1⟩ 42 (by decide) (by decide)⟩

/-- C4: product-details lookup answers 404 `Product not found` exactly when
no product has the requested id, and returns a matching product record when
one exists. -/
theorem get_product_details (db : Db) (id : Nat) :
    ((∀ p ∈ db.products, p.id ≠ id) →
      getProduct db id = .error (404, "Product not found")) ∧
    ((∃ p ∈ db.products, p.id = id) →
      ∃ p, getProduct db id = .ok p ∧ p ∈ db.products ∧ p.id = id) := by
  constructor
  · intro h
    have hfind : db.products.find? (fun p => p.id == id) = none :=
      List.find?_eq_none.mpr (fun x hx => by simp [h x hx])
    simp [getProduct, hfind]
  · rintro ⟨p, hp, hpid⟩
    have hfind : (db.products.find? (fun p => p.id == id)).isSome :=
      List.find?_isSome.mpr ⟨p, hp, by simp [hpid]⟩
    cases hcase : db.products.find? (fun p => p.id == id) with
    | none => rw [hcase] at hfind; simp at hfind
    | some p0 =>
        refine ⟨p0, by simp [getProduct, hcase], List.mem_of_find?_eq_some hcase, ?_⟩
        have hmatch := List.find?_some hcase
        simpa using hmatch

/-- C4 witness: in a store holding only product 1, looking up id 2 answers
404 and looking up id 1 returns a matching record. -/
theorem get_product_details_witness :
    ((∀ p ∈ (Db.mk [⟨1, "Book", 19, "novel", "B", "Books"⟩] [] 1).products, p.id ≠ 2) ∧
      getProduct ⟨[⟨1, "Book", 19, "novel", "B", "Books"⟩], [], 1⟩ 2 =
        .error (404, "Product not found")) ∧
    ((∃ p ∈ (Db.mk [⟨1, "Book", 19, "novel", "B", "Books"⟩] [] 1).products, p.id = 1) ∧
      ∃ p, getProduct ⟨[⟨1, "Book", 19, "novel", "B", "Books"⟩], [], 1⟩ 1 = .ok p ∧
        p ∈ (Db.mk [⟨1, "Book", 19, "novel", "B", "Books"⟩] [] 1).products ∧ p.id = 1) := by
  constructor
  · refine ⟨?_, ?_⟩
    · intro p hp
      rcases List.mem_singleton.mp hp with rfl
      decide
    · exact (get_product_details ⟨[⟨1, "Book", 19, "novel", "B", "Books"⟩], [], 1⟩ 2).1
        (fun p hp => by rcases List.mem_singleton.mp hp with rfl; decide)
  · refine ⟨⟨⟨1, "Book", 19, "novel", "B", "Books"⟩, List.mem_singleton.mpr rfl, rfl⟩, ?_⟩
    exact (get_product_details ⟨[⟨1, "Book", 19, "novel", "B", "Books"⟩], [], 1⟩ 1).2
      ⟨⟨1, "Book", 19, "novel", "B", "Books"⟩, List.mem_singleton.mpr rfl, rfl⟩

/-- C2: the computed cart total equals the sum over all items of
price × quantity rounded to 2 decimal places, and the empty cart's total is
0.00. -/
theorem cart_total_correct (cartItems : List CartRow) :
    calculateTotal cartItems = cartTotalSpec cartItems ∧ calculateTotal [] = 0 := by
  constructor
  · unfold calculateTotal cartTotalSpec
    rw [List.sum_eq_foldl, List.foldl_map]
  · show roundTo2 _ = 0
    unfold roundTo2
    norm_num

/-- C3: a cart update requested with quantity < 1 fails with a
`ValidationError` and leaves the stored cart items untouched. -/
theorem cart_update_rejects_quantity_below_one (db : Db) (id : Nat) (q : Int)
    (h : q < 1) :
    (cart_management db .update id (some q)).1 = db ∧
    (cart_management db .update id (some q)).2 =
      .error (.validationError "Quantity must be at least 1") := by
  constructor <;> simp [cart_management, h]

/-- C3 witness: updating item 1 to quantity 0 is rejected and the store is
unchanged. -/
theorem cart_update_rejects_quantity_below_one_witness :
    (0 : Int) < 1 ∧
    ((cart_management ⟨[], [⟨1, 7, 2⟩], 2⟩ .update 1 (some 0)).1 = ⟨[], [⟨1, 7, 2⟩], 2⟩ ∧
      (cart_management ⟨[], [⟨1, 7, 2⟩], 2⟩ .update 1 (some 0)).2 =
        .error (.validationError "Quantity must be at least 1")) :=
  ⟨by decide, cart_update_rejects_quantity_below_one ⟨[], [⟨1, 7, 2⟩], 2⟩ 1 0 (by decide)⟩

/-- C5: product search always succeeds (an empty result list included), and
every returned product satisfies all the given filters — case-insensitive
substring match of the query against name/description/category, exact
case-insensitive category match, and inclusive price bounds. -/
theorem product_search_filters (args : SearchArgs) (products : List Product) :
    product_search args products = .ok (products.filter (matchesSearch args)) ∧
    ∀ p ∈ products.filter (matchesSearch args),
      (∀ q, args.query = some q →
        (containsCI p.name q || containsCI p.description q || containsCI p.category q) = true) ∧
      (∀ c, args.category = some c → lowerStr p.category = lowerStr c) ∧
      (∀ lo, args.min_price = some lo → lo ≤ p.price) ∧
      (∀ hi, args.max_price = some hi → p.price ≤ hi) := by
  refine ⟨rfl, ?_⟩
  intro p hp
  have hm : matchesSearch args p = true := (List.mem_filter.mp hp).2
  unfold matchesSearch at hm
  simp only [Bool.and_eq_true] at hm
  obtain ⟨⟨⟨hq, hc⟩, hlo⟩, hhi⟩ := hm
  refine ⟨?_, ?_, ?_, ?_⟩
  · intro q hquery
    rw [hquery] at hq
    exact hq
  · intro c hcat
    rw [hcat] at hc
    exact eq_of_beq hc
  · intro lo hmin
    rw [hmin] at hlo
    exact of_decide_eq_true hlo
  · intro hi hmax
    rw [hmax] at hhi
    exact of_decide_eq_true hhi

/-- C5 witness: with price bounds [10, 700] and no query/category filter, the
smartphone (price 699) passes the search, and the bounds hold for it. -/
theorem product_search_filters_witness :
    (⟨1, "Smartphone", 699, "Latest smartphone", "P", "Electronics"⟩ : Product) ∈
      List.filter (matchesSearch ⟨none, none, some 10, some 700⟩)
        [⟨1, "Smartphone", 699, "Latest smartphone", "P", "Electronics"⟩] ∧
    ((10 : ℚ) ≤ 699 ∧ (699 : ℚ) ≤ 700) := by
  have hmem : (⟨1, "Smartphone", 699, "Latest smartphone", "P", "Electronics"⟩ : Product) ∈
      List.filter (matchesSearch ⟨none, none, some 10, some 700⟩)
        [⟨1, "Smartphone", 699, "Latest smartphone", "P", "Electronics"⟩] := by
    refine List.mem_filter.mpr ⟨List.mem_singleton.mpr rfl, ?_⟩
    show matchesSearch _ _ = true
    rfl
  have h := (product_search_filters ⟨none, none, some 10, some 700⟩
    [⟨1, "Smartphone", 699, "Latest smartphone", "P", "Electronics"⟩]).2 _ hmem
  exact ⟨hmem, h.2.2.1 10 rfl, h.2.2.2 700 rfl⟩

/-- C6: per incoming message, the model is invoked at most `max_iterations`
times, and the loop terminates with either a FINAL answer produced by the
model or the fixed apologetic fallback text (`runLoop` is a total structural
recursion on the iteration budget, so termination is by construction). -/
theorem orchestrator_loop_bounded (modelFn : List Turn → ModelReply)
    (execTool : ToolCall → Turn) (max_iterations : Nat) (history : List Turn)
    (message : String) :
    (process_message modelFn execTool max_iterations history message).2 ≤ max_iterations ∧
    ((∃ h, modelFn h =
        .final (process_message modelFn execTool max_iterations history message).1) ∨
      (process_message modelFn execTool max_iterations history message).1 = fallbackText) := by
  suffices H : ∀ (n : Nat) (hist : List Turn),
      (runLoop modelFn execTool n hist).2 ≤ n ∧
      ((∃ h, modelFn h = .final (runLoop modelFn execTool n hist).1) ∨
        (runLoop modelFn execTool n hist).1 = fallbackText) by
    exact H max_iterations (history ++ [Turn.user message])
  intro n
  induction n with
  | zero => exact fun hist => ⟨Nat.le_refl 0, Or.inr rfl⟩
  | succ n ih =>
      intro hist
      cases hr : modelFn hist with
      | final t =>
          constructor
          · simp [runLoop, hr]
          · exact Or.inl ⟨hist, by simp [runLoop, hr]⟩
      | toolRequest calls =>
          have hrec := ih (hist ++ calls.map execTool)
          constructor
          · simp only [runLoop, hr]
            exact Nat.succ_le_succ hrec.1
          · rcases hrec.2 with ⟨h, hh⟩ | hfb
            · exact Or.inl ⟨h, by simp only [runLoop, hr]; exact hh⟩
            · refine Or.inr ?_
              simp only [runLoop, hr]
              exact hfb

/-- While the threshold is out of reach, consecutive transient failures keep
the circuit closed and just count up. -/
theorem cbFailSeq_stays_closed (cfg : CBConfig) (ts : List Nat) :
    ∀ k : Nat, k + ts.length < cfg.failureThreshold →
      cbFailSeq cfg ⟨k, none⟩ ts = ⟨k + ts.length, none⟩ := by
  induction ts with
  | nil => intro k h; simp [cbFailSeq]
  | cons t ts ih =>
      intro k h
      have hnotyet : ¬ cfg.failureThreshold ≤ k + 1 := by
        simp only [List.length_cons] at h
        omega
      have hstep : (cbCall cfg ⟨k, none⟩ t false).1 = ⟨k + 1, none⟩ := by
        simp [cbCall, hnotyet]
      unfold cbFailSeq at *
      simp only [List.foldl_cons]
      rw [hstep]
      have hrest := ih (k + 1) (by simp only [List.length_cons] at h; omega)
      rw [hrest]
      congr 1
      simp only [List.length_cons]
      omega

/-- C7: the circuit breaker's behaviour — N consecutive transient failures
from the initial closed state open the circuit at the time of the Nth
failure; while open and inside the cool-down window every call short-circuits
to BackendUnavailable with no network attempt and unchanged state; once the
window has elapsed the next call is attempted as a probe; a successful probe
closes the circuit and resets the counter; a failed probe reopens the
cool-down from the probe's time. -/
theorem circuit_breaker_behaviour (cfg : CBConfig) :
    (∀ (ts : List Nat) (t : Nat), ts.length + 1 = cfg.failureThreshold →
      cbFailSeq cfg cbInit (ts ++ [t]) = ⟨cfg.failureThreshold, some t⟩) ∧
    (∀ (st : CBState) (t0 now : Nat) (net : Bool), st.openedAt = some t0 →
      now < t0 + cfg.cooldown →
      cbCall cfg st now net = (st, .backendUnavailable, false)) ∧
    (∀ (st : CBState) (t0 now : Nat) (net : Bool), st.openedAt = some t0 →
      t0 + cfg.cooldown ≤ now → (cbCall cfg st now net).2.2 = true) ∧
    (∀ (st : CBState) (t0 now : Nat), st.openedAt = some t0 →
      t0 + cfg.cooldown ≤ now →
      cbCall cfg st now true = (⟨0, none⟩, .success, true)) ∧
    (∀ (st : CBState) (t0 now : Nat), st.openedAt = some t0 →
      t0 + cfg.cooldown ≤ now →
      (cbCall cfg st now false).1.openedAt = some now ∧
      (cbCall cfg st now false).2.1 = .backendUnavailable) := by
  refine ⟨?_, ?_, ?_, ?_, ?_⟩
  · intro ts t hlen
    have hth : cfg.failureThreshold ≤ ts.length + 1 := by omega
    have hts := cbFailSeq_stays_closed cfg ts 0 (by omega)
    simp only [Nat.zero_add] at hts
    unfold cbFailSeq at hts ⊢
    simp only [cbInit]
    rw [List.foldl_append, hts]
    simp only [List.foldl_cons, List.foldl_nil]
    simp [cbCall, hth, hlen]
  · intro st t0 now net hopen hlt
    obtain ⟨f, oa⟩ := st
    cases hopen
    simp [cbCall, hlt]
  · intro st t0 now net hopen hle
    obtain ⟨f, oa⟩ := st
    cases hopen
    have : ¬ now < t0 + cfg.cooldown := by omega
    cases net <;> simp [cbCall, this]
  · intro st t0 now hopen hle
    obtain ⟨f, oa⟩ := st
    cases hopen
    have : ¬ now < t0 + cfg.cooldown := by omega
    simp [cbCall, this]
  · intro st t0 now hopen hle
    obtain ⟨f, oa⟩ := st
    cases hopen
    have : ¬ now < t0 + cfg.cooldown := by omega
    simp [cbCall, this]

/-- C7 witness: with threshold 2 and cool-down 5, two failures (at times 0
and 1) open the circuit; at time 3 a call short-circuits with no attempt; at
time 9 a successful probe closes the circuit and a failed probe reopens the
cool-down at time 9. -/
theorem circuit_breaker_behaviour_witness :
    ([0].length + 1 = (2 : Nat) ∧
      cbFailSeq ⟨2, 5⟩ cbInit ([0] ++ [1]) = ⟨2, some 1⟩) ∧
    ((3 : Nat) < 1 + 5 ∧
      cbCall ⟨2, 5⟩ ⟨2, some 1⟩ 3 true = (⟨2, some 1⟩, .backendUnavailable, false)) ∧
    ((1 : Nat) + 5 ≤ 9 ∧
      (cbCall ⟨2, 5⟩ ⟨2, some 1⟩ 9 false).2.2 = true) ∧
    (cbCall ⟨2, 5⟩ ⟨2, some 1⟩ 9 true = (⟨0, none⟩, .success, true)) ∧
    ((cbCall ⟨2, 5⟩ ⟨2, some 1⟩ 9 false).1.openedAt = some 9 ∧
      (cbCall ⟨2, 5⟩ ⟨2, some 1⟩ 9 false).2.1 = .backendUnavailable) := by
  refine ⟨⟨by decide, ?_⟩, ⟨by decide, ?_⟩, ⟨by decide, ?_⟩, ?_, ?_⟩
  · exact (circuit_breaker_behaviour ⟨2, 5⟩).1 [0] 1 (by decide)
  · exact (circuit_breaker_behaviour ⟨2, 5⟩).2.1 ⟨2, some 1⟩ 1 3 true rfl (by decide)
  · exact (circuit_breaker_behaviour ⟨2, 5⟩).2.2.1 ⟨2, some 1⟩ 1 9 false rfl (by decide)
  · exact (circuit_breaker_behaviour ⟨2, 5⟩).2.2.2.1 ⟨2, some 1⟩ 1 9 rfl (by decide)
  · exact (circuit_breaker_behaviour ⟨2, 5⟩).2.2.2.2 ⟨2, some 1⟩ 1 9 rfl (by decide)

end KiroShop
